import Mathlib

/-!
Verification of the session / request-correlation layer of lite-idp.

The development shallowly embeds the two Go source files:

* `store/store.go` — the `Storer` interface with its two backends: the
  networked redis-backed `storer` and the local boltdb-backed `embedDB`.
* the authentication file — `getIP`, `retrieveUserFromSession`,
  `storeUserInSession`, `storeRequestState`, `retrieveRequestState`.

Conventions of the embedding:

* Go byte strings that are inspected character by character (remote
  addresses, numeric expiry strings) are `List Char`; strings used only as
  opaque keys or names are `String`.
* JSON serialization is an external collaborator; it is modelled as the
  identity injection into the closed universe `Data` of values this layer
  ever stores, with typed deserialization as the partial projection
  (`decodeUser`, `decodeReqState`).  A `Data.raw` constructor covers
  uninterpreted byte strings such as the decimal expiry records.
* Wall-clock time is an explicit `now : Int` parameter (Unix seconds).
* A Go runtime panic (nil-map/nil-interface dereference) is the
  `ROutcome.panicked` constructor; an error return is `ROutcome.error`.
* Fallible effects of the outside world (an unreachable redis service, a
  failed bolt transaction) are explicit boolean parameters.
-/

/-- Outcome of a retrieval-like operation: a value, a Go error value, or a
runtime panic of the goroutine. -/
inductive ROutcome (α : Type) where
  | ok (a : α)
  | error (msg : String)
  | panicked
deriving DecidableEq, Repr

/-- Model of `net.IP`: a byte slice; the empty list is Go's nil IP, the
result of a failed parse.  A parsed IPv4 address is in its 16-byte
IPv4-in-IPv6 form, exactly as `net.ParseIP` returns it. -/
abbrev GoIP : Type := List Nat

/-- The 12 leading bytes of an IPv4-in-IPv6 address (`::ffff:a.b.c.d`). -/
def v4MappedFront : List Nat := [0, 0, 0, 0, 0, 0, 0, 0, 0, 0, 255, 255]

/-- Model of `net.IP.Equal`: byte equality, with a 4-byte address equal to
its 16-byte IPv4-in-IPv6 form; two nil IPs are equal (both empty). -/
def ipEqual (ip x : GoIP) : Bool :=
  if ip.length == x.length then ip == x
  else if ip.length == 4 && x.length == 16 then
    x.take 12 == v4MappedFront && x.drop 12 == ip
  else if ip.length == 16 && x.length == 4 then
    ip.take 12 == v4MappedFront && ip.drop 12 == x
  else false

/-- Decimal digit group of `parseIPv4` (Go's `dtoi`): value, digit count,
and the rest of the input; `none` when no leading digit.  Go caps the
accumulator at `big` and fails; every such input also fails the `> 255`
check of the caller, so the outcome is identical. -/
def dtoi (s : List Char) : Option (Nat × Nat × List Char) :=
  let ds := s.takeWhile Char.isDigit
  if ds.isEmpty then none
  else some (ds.foldl (fun a c => a * 10 + (c.toNat - 48)) 0, ds.length, s.drop ds.length)

/-- One dotted-quad group: at most 255, no leading zero (Go rejects
`01.2.3.4`). -/
def parseV4Group (s : List Char) : Option (Nat × List Char) :=
  match dtoi s with
  | none => none
  | some (n, len, rest) =>
    if n > 255 then none
    else if len > 1 && s.head? == some '0' then none
    else some (n, rest)

/-- Remaining dotted-quad groups: `k` separators left; the input must be
exhausted after the last group. -/
def parseV4Rest : Nat → List Char → Option (List Nat)
  | 0, s =>
    match parseV4Group s with
    | none => none
    | some (n, rest) => if rest.isEmpty then some [n] else none
  | k + 1, s =>
    match parseV4Group s with
    | none => none
    | some (n, rest) =>
      match rest with
      | '.' :: rest1 => (parseV4Rest k rest1).map (n :: ·)
      | _ => none

/-- Model of Go's `parseIPv4` followed by `IPv4(...)`: a valid dotted quad
becomes the 16-byte IPv4-in-IPv6 address, anything else the nil IP. -/
def parseIPv4 (s : List Char) : GoIP :=
  match parseV4Rest 3 s with
  | some groups => v4MappedFront ++ groups
  | none => []

/-- Value of one hex digit, `none` for a non-hex character. -/
def hexVal (c : Char) : Option Nat :=
  if '0' ≤ c && c ≤ '9' then some (c.toNat - 48)
  else if 'a' ≤ c && c ≤ 'f' then some (c.toNat - 87)
  else if 'A' ≤ c && c ≤ 'F' then some (c.toNat - 55)
  else none

/-- Hex digit group of `parseIPv6` (Go's `xtoi`): value and rest; `none`
when no leading hex digit.  Go fails outright past 6 digits; every such
value also fails the caller's `> 0xFFFF` check, so the outcome is
identical. -/
def xtoi (s : List Char) : Option (Nat × List Char) :=
  let ds := s.takeWhile (fun c => (hexVal c).isSome)
  if ds.isEmpty then none
  else some (ds.foldl (fun a c => a * 16 + (hexVal c).getD 0) 0, s.drop ds.length)

/-- Main loop of Go's `parseIPv6`.  `acc` holds the bytes filled so far
(Go's `ip[0:i]`), `ell` the byte index of the `::` if seen.  Returns the
loop state at exit, `none` for a parse failure.  The fuel bounds the at
most eight iterations (each one appends two bytes). -/
def parseV6Loop : Nat → List Nat → Option Nat → List Char → Option (List Nat × Option Nat × List Char)
  | 0, _, _, _ => none
  | fuel + 1, acc, ell, s =>
    if 16 ≤ acc.length then some (acc, ell, s)
    else
      match xtoi s with
      | none => none
      | some (n, rest) =>
        if n > 0xFFFF then none
        else if rest.head? == some '.' then
          -- trailing embedded IPv4 group, parsed from the current position
          if ell.isNone && !(acc.length == 12) then none
          else if acc.length + 4 > 16 then none
          else
            match parseIPv4 s with
            | [] => none
            | ip4 => some (acc ++ ip4.drop 12, ell, [])
        else
          let acc1 := acc ++ [n / 256, n % 256]
          match rest with
          | [] => some (acc1, ell, [])
          | ':' :: rest1 =>
            match rest1 with
            | [] => none
            | ':' :: rest2 =>
              if ell.isSome then none
              else if rest2.isEmpty then some (acc1, some acc1.length, [])
              else parseV6Loop fuel acc1 (some acc1.length) rest2
            | _ => parseV6Loop fuel acc1 ell rest1
          | _ => none

/-- Model of Go's `parseIPv6`: 16-byte address or the nil IP. -/
def parseIPv6 (s : List Char) : GoIP :=
  match s with
  | ':' :: ':' :: tail =>
    if tail.isEmpty then List.replicate 16 0
    else
      match parseV6Loop 9 [] (some 0) tail with
      | none => []
      | some (acc, ell, rest) => parseV6Finish acc ell rest
  | _ =>
    match parseV6Loop 9 [] none s with
    | none => []
    | some (acc, ell, rest) => parseV6Finish acc ell rest
where
  /-- Post-loop checks of `parseIPv6`: leftover input fails; a short
  address needs a `::` and is zero-expanded at its position; a full
  address must not also have a `::`. -/
  parseV6Finish (acc : List Nat) (ell : Option Nat) (rest : List Char) : GoIP :=
    if !rest.isEmpty then []
    else if acc.length < 16 then
      match ell with
      | none => []
      | some e => acc.take e ++ List.replicate (16 - acc.length) 0 ++ acc.drop e
    else if ell.isSome then [] else acc

/-- Model of `net.ParseIP`: the first `.` or `:` decides the family; a
string with neither is the nil IP. -/
def parseIP (s : List Char) : GoIP :=
  match s.find? (fun c => c == '.' || c == ':') with
  | some c => if c == '.' then parseIPv4 s else parseIPv6 s
  | none => []

/-- Model of `http.Cookie` as this layer builds it. -/
structure Cookie where
  name : String
  value : String
  path : String
  httpOnly : Bool
  secure : Bool
deriving DecidableEq, Repr

/-- The slice of `http.Request` this layer reads: the cookie header and the
transport-level remote address. -/
structure Request where
  cookies : List (String × String)
  remoteAddr : List Char

/-- Model of `http.Request.Cookie name`: the first cookie of that name, an
error (here `none`) when absent. -/
def getCookie (request : Request) (name : String) : Option String :=
  (request.cookies.find? (fun c => c.1 == name)).map (fun c => c.2)

/-- `getIP` from the authentication file: everything before the first `:`
of `RemoteAddr` (Go's `strings.Split(addr, ":")[0]`), parsed with
`net.ParseIP`. -/
def getIP (request : Request) : GoIP :=
  let addr := request.remoteAddr
  let addr := if addr.contains ':' then addr.takeWhile (fun c => !(c == ':')) else addr
  parseIP addr

/-- The slice of `protocol.AuthenticatedUser` this layer touches: the
display name, the client IP recorded at authentication time, and the
remaining protocol attributes collapsed into one opaque field. -/
structure AuthenticatedUser where
  Name : String
  IP : GoIP
  attrs : String
deriving DecidableEq, Repr

/-- Opaque `protocol.AuthnRequest` record: serialized and returned, never
inspected. -/
structure AuthnRequest where
  payload : String
deriving DecidableEq, Repr

/-- `RequestState` from the authentication file: the pending request (a Go
pointer, hence `Option`) and the relay string. -/
structure RequestState where
  AuthnRequest : Option AuthnRequest
  RelayState : String
deriving DecidableEq, Repr

/-- Closed universe of values this layer ever stores.  `json.Marshal` is
the identity injection into `Data`; `raw` holds uninterpreted byte strings
such as the boltdb expiry records. -/
inductive Data where
  | user (u : AuthenticatedUser)
  | reqState (rs : RequestState)
  | raw (bytes : List Char)
deriving DecidableEq, Repr

/-- Model of `json.Marshal` on the values this layer stores: the identity
injection (serialization is an external collaborator and never fails on
these record types). -/
def jsonMarshal (v : Data) : Data := v

/-- Typed `json.Unmarshal` into an `AuthenticatedUser` target. -/
def decodeUser : Data → Option AuthenticatedUser
  | Data.user u => some u
  | _ => none

/-- Typed `json.Unmarshal` into a `RequestState` target. -/
def decodeReqState : Data → Option RequestState
  | Data.reqState rs => some rs
  | _ => none

/-- The `store.Storer` interface over an explicit backend state `σ`:
`Store(key, value, time)` and `Retrieve(key, &value)`, with `now` made
explicit and the out-parameter's type carried by a decoder. -/
structure StorerM (σ : Type) : Type 1 where
  store : σ → Int → String → Data → Nat → σ × Option String
  retrieve : {α : Type} → σ → Int → String → (Data → Option α) → σ × ROutcome α

/-! ### The networked backend (`storer`, redis) -/

/-- State of the remote redis service: key, payload bytes, absolute expiry
(Unix seconds).  Later writes shadow earlier ones. -/
abbrev RedisState : Type := List (String × Data × Int)

/-- Redis `SETEX key ttl data` at time `now`. -/
def setex (st : RedisState) (key : String) (ttl : Nat) (data : Data) (now : Int) : RedisState :=
  (key, data, now + (ttl : Int)) :: st.filter (fun e => !(e.1 == key))

/-- Redis `GET key` at time `now`: `none` for a key that is absent or past
its expiry (redis deletes expired keys on access). -/
def redisGet (st : RedisState) (now : Int) (key : String) : Option Data :=
  match st.find? (fun e => e.1 == key) with
  | some (_, d, exp) => if now < exp then some d else none
  | none => none

/-- `storer.Store`: marshals, issues `SETEX`, and returns nil regardless —
the error of `conn.Do` is discarded by the source.  `reachable = false`
models an unreachable backend: the remote write does not happen, yet the
return value is still nil. -/
def storerStore (reachable : Bool) (st : RedisState) (now : Int) (key : String) (value : Data) (time : Nat) : RedisState × Option String :=
  let data := jsonMarshal value
  if reachable then (setex st key time data now, none) else (st, none)

/-- `storer.Retrieve`: `GET`, then `data.([]byte)` — a nil reply (absent or
expired key) makes that type assertion panic — then `json.Unmarshal`.
When the backend is unreachable `conn.Do` returns an error, which is
surfaced.  `GET` never mutates the remote state. -/
def storerRetrieve {α : Type} (reachable : Bool) (st : RedisState) (now : Int) (key : String) (dec : Data → Option α) : RedisState × ROutcome α :=
  if reachable then
    match redisGet st now key with
    | none => (st, ROutcome.panicked)
    | some d =>
      match dec d with
      | some a => (st, ROutcome.ok a)
      | none => (st, ROutcome.error "json: cannot unmarshal")
  else (st, ROutcome.error "connection refused")

/-- The networked backend packaged as a `Storer`. -/
def redisStorer (reachable : Bool) : StorerM RedisState where
  store := storerStore reachable
  retrieve := fun st now key dec => storerRetrieve reachable st now key dec

/-! ### The local durable backend (`embedDB`, boltdb) -/

/-- A bolt database: named buckets, each an association list from key to
payload bytes. -/
abbrev BoltDB : Type := List (String × List (String × Data))

/-- `tx.Bucket name`: `none` models bolt's nil bucket pointer. -/
def getBucket (db : BoltDB) (name : String) : Option (List (String × Data)) :=
  (db.find? (fun b => b.1 == name)).map (fun b => b.2)

/-- `tx.CreateBucketIfNotExists name`. -/
def createBucketIfNotExists (db : BoltDB) (name : String) : BoltDB :=
  match db.find? (fun b => b.1 == name) with
  | some _ => db
  | none => (name, []) :: db

/-- `bucket.Put key val` on an existing bucket. -/
def bucketPut (db : BoltDB) (name : String) (key : String) (val : Data) : BoltDB :=
  db.map (fun b => if b.1 == name then (b.1, (key, val) :: b.2.filter (fun e => !(e.1 == key))) else b)

/-- `bucket.Get key`: nil byte slice (`none`) for a missing key. -/
def bucketGet (bk : List (String × Data)) (key : String) : Option Data :=
  (bk.find? (fun e => e.1 == key)).map (fun e => e.2)

/-- Model of `strconv.FormatInt(n, 10)`. -/
def formatInt (n : Int) : List Char :=
  if n < 0 then '-' :: Nat.toDigits 10 n.natAbs else Nat.toDigits 10 n.toNat

/-- Model of `strconv.ParseInt(s, 10, 64)` as the source uses it: the
parsed value together with an error flag; on a syntax error (empty input
included) Go returns value 0 and a non-nil error. -/
def parseIntGo (s : List Char) : Int × Bool :=
  let signed : Bool × List Char :=
    match s with
    | '-' :: r => (true, r)
    | '+' :: r => (false, r)
    | r => (false, r)
  let neg := signed.1
  let t := signed.2
  if t.isEmpty then (0, true)
  else if t.all Char.isDigit then
    let n : Nat := t.foldl (fun a c => a * 10 + (c.toNat - 48)) 0
    (if neg then -(n : Int) else (n : Int), false)
  else (0, true)

/-- `embedDB.Store`: two separate `Update` transactions.  The first puts
the marshalled payload into bucket `"data"`; the second puts the decimal
expiry string `now + ttd` into bucket `"expTimes"` and its error value
overwrites the first transaction's.  `fail1`/`fail2` model a failed (and
rolled-back) first/second transaction. -/
def embedStore (fail1 fail2 : Bool) (db : BoltDB) (now : Int) (key : String) (value : Data) (ttd : Nat) : BoltDB × Option String :=
  let db1 := if fail1 then db
    else bucketPut (createBucketIfNotExists db "data") "data" key (jsonMarshal value)
  let db2 := if fail2 then db1
    else bucketPut (createBucketIfNotExists db1 "expTimes") "expTimes" key
      (Data.raw (formatInt (now + (ttd : Int))))
  -- only the second transaction's error reaches the final check
  let err := if fail2 then some "updating database: tx error" else none
  (db2, err)

/-- Bytes of a bucket value as seen by `string(...)`: a nil slice is the
empty string.  The stored expiry records are always `Data.raw`; for any
other payload `ParseInt` fails exactly as it does on its JSON text, so the
empty-list rendering leaves every observable outcome unchanged. -/
def dataChars : Option Data → List Char
  | some (Data.raw s) => s
  | _ => []

/-- Body of the `View` transaction of `embedDB.Retrieve`, exactly as
written: it reads bucket `"times"` — never created by any writer, so its
nil bucket pointer panics on `Get` — parses the expiry, and copies the
payload only when `time.Now().After(expSec)` holds, i.e. when the entry is
already past its expiry. -/
def embedViewBody (db : BoltDB) (now : Int) (key : String) : ROutcome (Option Data) :=
  let data := getBucket db "data"
  match getBucket db "times" with
  | none => ROutcome.panicked
  | some times =>
    let expTime := bucketGet times key
    let parsed := parseIntGo (dataChars expTime)
    let timeStr := parsed.1
    let perr := parsed.2
    if now > timeStr then
      match data with
      | none => ROutcome.panicked
      | some dataBucket =>
        let myData := bucketGet dataBucket key
        if perr then ROutcome.error "ParseInt: invalid syntax" else ROutcome.ok myData
    else
      if perr then ROutcome.error "ParseInt: invalid syntax" else ROutcome.ok none

/-- `embedDB.Retrieve`: run the read-only `View` body, surface its error,
then `json.Unmarshal` the copied bytes — a nil slice is a JSON error. -/
def embedRetrieve {α : Type} (db : BoltDB) (now : Int) (key : String) (dec : Data → Option α) : BoltDB × ROutcome α :=
  match embedViewBody db now key with
  | ROutcome.panicked => (db, ROutcome.panicked)
  | ROutcome.error e => (db, ROutcome.error e)
  | ROutcome.ok none => (db, ROutcome.error "unexpected end of JSON input")
  | ROutcome.ok (some d) =>
    match dec d with
    | some a => (db, ROutcome.ok a)
    | none => (db, ROutcome.error "json: cannot unmarshal")

/-- The local backend packaged as a `Storer`. -/
def boltStorer (fail1 fail2 : Bool) : StorerM BoltDB where
  store := embedStore fail1 fail2
  retrieve := fun db now key dec => embedRetrieve db now key dec

/-! ### SessionManager and RequestStateManager (authentication file) -/

/-- `retrieveUserFromSession`: cookie `lidp-user`, typed retrieve, then the
IP-binding check.  A missing cookie, a store error, or an IP mismatch all
collapse to `none`; the function has no error return.  The log lines it
emits are part of the result. -/
def retrieveUserFromSession {σ : Type} (S : StorerM σ) (st : σ) (now : Int) (request : Request) : σ × ROutcome (Option AuthenticatedUser) × List String :=
  match getCookie request "lidp-user" with
  | none => (st, ROutcome.ok none, [])
  | some cval =>
    match S.retrieve st now cval decodeUser with
    | (st1, ROutcome.panicked) => (st1, ROutcome.panicked, [])
    | (st1, ROutcome.error _) => (st1, ROutcome.ok none, [])
    | (st1, ROutcome.ok tmpUser) =>
      let logs := ["Using exising session for " ++ tmpUser.Name]
      if ipEqual (getIP request) tmpUser.IP then (st1, ROutcome.ok (some tmpUser), logs)
      else (st1, ROutcome.ok none,
        logs ++ ["Warning - Existing session associated with a different IP address."])

/-- `storeUserInSession`: set the session cookie, then store the user for
28800 seconds; a store failure is only logged. The fresh `sessionID`
(an external uuid) is a parameter. -/
def storeUserInSession {σ : Type} (S : StorerM σ) (st : σ) (now : Int) (sessionID : String) (user : AuthenticatedUser) : σ × List Cookie × List String :=
  let c : Cookie := ⟨"lidp-user", sessionID, "/", true, true⟩
  let logs := ["Creating a new session for " ++ user.Name]
  match S.store st now sessionID (Data.user user) 28800 with
  | (st1, some _) => (st1, [c], logs ++ ["Failed to save session for user."])
  | (st1, none) => (st1, [c], logs)

/-- `storeRequestState`: store the `(authnRequest, relayState)` pair for
300 seconds under a fresh identifier; on failure return the error without
setting the cookie, on success set cookie `lidp-rs` to the identifier. -/
def storeRequestState {σ : Type} (S : StorerM σ) (st : σ) (now : Int) (sessionID : String) (authnRequest : Option AuthnRequest) (relayState : String) : σ × List Cookie × Option String :=
  let state : RequestState := ⟨authnRequest, relayState⟩
  match S.store st now sessionID (Data.reqState state) 300 with
  | (st1, some e) => (st1, [], some e)
  | (st1, none) => (st1, [⟨"lidp-rs", sessionID, "/", true, true⟩], none)

/-- `retrieveRequestState`: cookie `lidp-rs`, typed retrieve; every failure
collapses to `(none, "")` after logging the error. -/
def retrieveRequestState {σ : Type} (S : StorerM σ) (st : σ) (now : Int) (request : Request) : σ × ROutcome (Option AuthnRequest × String) × List String :=
  match getCookie request "lidp-rs" with
  | none => (st, ROutcome.ok (none, ""), [])
  | some cval =>
    match S.retrieve st now cval decodeReqState with
    | (st1, ROutcome.panicked) => (st1, ROutcome.panicked, [])
    | (st1, ROutcome.error e) => (st1, ROutcome.ok (none, ""), [e])
    | (st1, ROutcome.ok rs) => (st1, ROutcome.ok (rs.AuthnRequest, rs.RelayState), [])

/-- Concrete user record reused by the store-level evaluations. -/
def demoUser : AuthenticatedUser := ⟨"alice", v4MappedFront ++ [10, 0, 0, 5], "attrs"⟩

/-! ### Theorems -/

/-- Claim C1: on the local durable backend a key stored with a
still-in-the-future expiry record is nonetheless not returned by
`Retrieve`: both `Store` transactions succeed and leave the expiry record
`100` for key `"k"` in bucket `"expTimes"`, yet `Retrieve` at time `50`
(before the expiry) panics, because it reads the expiry from the
never-created bucket `"times"` and dereferences the nil bucket — so the
read never follows the specified absent/past/future case split. -/
theorem embedRetrieve_ignores_valid_expiry :
    (embedStore false false [] 0 "k" (Data.user demoUser) 100).2 = none ∧
    getBucket (embedStore false false [] 0 "k" (Data.user demoUser) 100).1 "expTimes" =
      some [("k", Data.raw (formatInt 100))] ∧
    (embedRetrieve (embedStore false false [] 0 "k" (Data.user demoUser) 100).1 50 "k" decodeUser).2 =
      ROutcome.panicked := by
  decide

/-- Claim C2: the two regions are written in two separate transactions and
the first transaction's error is overwritten by the second's: when the
`"data"` write fails and the `"expTimes"` write succeeds, `Store` returns
nil (no error reaches the caller) while the final state holds an expiry
record for `"k"` with no payload — exactly the lone-record state the claim
rules out. -/
theorem embedStore_swallows_first_failure :
    (embedStore true false [] 0 "k" (Data.user demoUser) 100).2 = none ∧
    getBucket (embedStore true false [] 0 "k" (Data.user demoUser) 100).1 "data" = none ∧
    getBucket (embedStore true false [] 0 "k" (Data.user demoUser) 100).1 "expTimes" =
      some [("k", Data.raw (formatInt 100))] := by
  decide

/-- Claim C3: on the networked backend the error of `conn.Do("SETEX", ...)`
is discarded, so with the backend unreachable `Store` writes nothing and
still returns nil — success is reported to the caller instead of a
StoreError. -/
theorem storerStore_unreachable_reports_success :
    storerStore false [] 0 "k" (Data.user demoUser) 60 = ([], none) := by
  decide

/-- Claim C4: `Retrieve` of a never-written key panics on both backends —
on the networked backend the nil `GET` reply fails the `data.([]byte)`
type assertion, on the local backend the nil `"times"` bucket is
dereferenced — and on the networked backend a key read after its expiry
panics the same way instead of reporting not-found. -/
theorem retrieve_missing_key_panics :
    (storerRetrieve true [] 0 "missing" decodeUser).2 = ROutcome.panicked ∧
    (embedRetrieve [] 0 "missing" decodeUser).2 = ROutcome.panicked ∧
    (storerRetrieve true (setex [] "k" 10 (Data.user demoUser) 0) 100 "k" decodeUser).2 =
      ROutcome.panicked := by
  decide

/-- Claim C5: `storeUserInSession` for user `u` issues the session cookie
for the fresh identifier and, on a request that carries that cookie from
the same client IP, `retrieveUserFromSession` within the 8-hour TTL
returns `u` unchanged (over the networked backend with a reachable
service; the local backend cannot complete any retrieval, see C1/C4). -/
theorem createSession_then_resolveSession_same_ip
    (st : RedisState) (now1 now2 : Int) (sid : String) (u : AuthenticatedUser) (req : Request)
    (hcookie : getCookie req "lidp-user" = some sid)
    (hip : ipEqual (getIP req) u.IP = true)
    (httl : now2 < now1 + 28800) :
    (storeUserInSession (redisStorer true) st now1 sid u).2.1 =
      [⟨"lidp-user", sid, "/", true, true⟩] ∧
    (retrieveUserFromSession (redisStorer true)
        (storeUserInSession (redisStorer true) st now1 sid u).1 now2 req).2.1 =
      ROutcome.ok (some u) := by
  constructor
  · simp [storeUserInSession, redisStorer, storerStore, jsonMarshal]
  · simp [storeUserInSession, retrieveUserFromSession, redisStorer, storerStore,
      storerRetrieve, redisGet, setex, jsonMarshal, hcookie, hip, httl, decodeUser]

/-- Witness for C5 at a concrete instance. -/
theorem createSession_then_resolveSession_same_ip_witness :
    (storeUserInSession (redisStorer true) [] 0 "s1" demoUser).2.1 =
      [⟨"lidp-user", "s1", "/", true, true⟩] ∧
    (retrieveUserFromSession (redisStorer true)
        (storeUserInSession (redisStorer true) [] 0 "s1" demoUser).1 100
        ⟨[("lidp-user", "s1")], "10.0.0.5:443".data⟩).2.1 =
      ROutcome.ok (some demoUser) :=
  createSession_then_resolveSession_same_ip [] 0 100 "s1" demoUser
    ⟨[("lidp-user", "s1")], "10.0.0.5:443".data⟩ (by decide) (by decide) (by decide)

/-- Claim C6: for a stored, unexpired session whose recorded IP differs
from the one derived from the resolving request, `retrieveUserFromSession`
logs the mismatch warning and returns `none`: the state is untouched, the
outcome is a plain `ok none` (never an error value, never a panic), and
the request is not rejected in any other way. -/
theorem resolveSession_ip_mismatch_returns_none
    (st : RedisState) (now : Int) (cval : String) (u : AuthenticatedUser) (req : Request)
    (hcookie : getCookie req "lidp-user" = some cval)
    (hstored : redisGet st now cval = some (Data.user u))
    (hip : ipEqual (getIP req) u.IP = false) :
    retrieveUserFromSession (redisStorer true) st now req =
      (st, ROutcome.ok none,
        ["Using exising session for " ++ u.Name,
         "Warning - Existing session associated with a different IP address."]) := by
  simp [retrieveUserFromSession, redisStorer, storerRetrieve, hcookie, hstored, hip, decodeUser]

/-- Witness for C6 at a concrete instance. -/
theorem resolveSession_ip_mismatch_returns_none_witness :
    retrieveUserFromSession (redisStorer true)
        [("c1", Data.user ⟨"bob", v4MappedFront ++ [10, 0, 0, 9], "b"⟩, 1000)] 10
        ⟨[("lidp-user", "c1")], "10.0.0.5:443".data⟩ =
      ([("c1", Data.user ⟨"bob", v4MappedFront ++ [10, 0, 0, 9], "b"⟩, 1000)],
        ROutcome.ok none,
        ["Using exising session for " ++ "bob",
         "Warning - Existing session associated with a different IP address."]) :=
  resolveSession_ip_mismatch_returns_none
    [("c1", Data.user ⟨"bob", v4MappedFront ++ [10, 0, 0, 9], "b"⟩, 1000)] 10 "c1"
    ⟨"bob", v4MappedFront ++ [10, 0, 0, 9], "b"⟩
    ⟨[("lidp-user", "c1")], "10.0.0.5:443".data⟩ (by decide) (by decide) (by decide)

/-- Claim C7: a successful `storeRequestState` of `(req, relay)` followed,
within the 5-minute TTL, by `retrieveRequestState` on a request carrying
the issued cookie returns exactly the pair `(req, relay)` (over the
networked backend with a reachable service). -/
theorem saveState_then_loadState_roundtrip
    (st : RedisState) (now1 now2 : Int) (sid : String) (r : AuthnRequest) (relay : String)
    (req : Request)
    (hcookie : getCookie req "lidp-rs" = some sid)
    (httl : now2 < now1 + 300) :
    (storeRequestState (redisStorer true) st now1 sid (some r) relay).2.2 = none ∧
    (retrieveRequestState (redisStorer true)
        (storeRequestState (redisStorer true) st now1 sid (some r) relay).1 now2 req).2.1 =
      ROutcome.ok (some r, relay) := by
  constructor
  · simp [storeRequestState, redisStorer, storerStore, jsonMarshal]
  · simp [storeRequestState, retrieveRequestState, redisStorer, storerStore,
      storerRetrieve, redisGet, setex, jsonMarshal, hcookie, httl, decodeReqState]

/-- Witness for C7 at a concrete instance. -/
theorem saveState_then_loadState_roundtrip_witness :
    (storeRequestState (redisStorer true) [] 0 "rs1" (some ⟨"authn"⟩) "relay").2.2 = none ∧
    (retrieveRequestState (redisStorer true)
        (storeRequestState (redisStorer true) [] 0 "rs1" (some ⟨"authn"⟩) "relay").1 200
        ⟨[("lidp-rs", "rs1")], "10.0.0.5:443".data⟩).2.1 =
      ROutcome.ok (some ⟨"authn"⟩, "relay") :=
  saveState_then_loadState_roundtrip [] 0 200 "rs1" ⟨"authn"⟩ "relay"
    ⟨[("lidp-rs", "rs1")], "10.0.0.5:443".data⟩ (by decide) (by decide)

/-- Claim C8: `storeRequestState` propagates the store's error verbatim and
sets the request-state cookie exactly when the write succeeded: on failure
no cookie is set and the error is returned; on success the single cookie
`lidp-rs` carries the fresh identifier and the call returns nil.  Stated
for every backend implementing the `Storer` interface. -/
theorem storeRequestState_error_handling
    {σ : Type} (S : StorerM σ) (st : σ) (now : Int) (sid : String)
    (r : Option AuthnRequest) (relay : String) :
    storeRequestState S st now sid r relay =
      ((S.store st now sid (Data.reqState ⟨r, relay⟩) 300).1,
       if (S.store st now sid (Data.reqState ⟨r, relay⟩) 300).2.isSome then []
       else [⟨"lidp-rs", sid, "/", true, true⟩],
       (S.store st now sid (Data.reqState ⟨r, relay⟩) 300).2) := by
  unfold storeRequestState
  rcases hs : S.store st now sid (Data.reqState ⟨r, relay⟩) 300 with ⟨st1, e⟩
  cases e <;> simp [hs]

/-- Claim C10: `retrieveRequestState` does not consume the stored request
state: for an entry unexpired at both read times, the first and second
load return the same `(pendingRequest, relayContext)` pair and neither
call modifies the store state at all. -/
theorem loadState_idempotent_nonconsuming
    (st : RedisState) (now1 now2 : Int) (sid : String) (rs : RequestState) (req : Request)
    (hcookie : getCookie req "lidp-rs" = some sid)
    (h1 : redisGet st now1 sid = some (Data.reqState rs))
    (h2 : redisGet st now2 sid = some (Data.reqState rs)) :
    (retrieveRequestState (redisStorer true) st now1 req).1 = st ∧
    (retrieveRequestState (redisStorer true)
        (retrieveRequestState (redisStorer true) st now1 req).1 now2 req).1 = st ∧
    (retrieveRequestState (redisStorer true) st now1 req).2.1 =
      ROutcome.ok (rs.AuthnRequest, rs.RelayState) ∧
    (retrieveRequestState (redisStorer true)
        (retrieveRequestState (redisStorer true) st now1 req).1 now2 req).2.1 =
      (retrieveRequestState (redisStorer true) st now1 req).2.1 := by
  simp [retrieveRequestState, redisStorer, storerRetrieve, hcookie, h1, h2, decodeReqState]

/-- Witness for C10 at a concrete instance. -/
theorem loadState_idempotent_nonconsuming_witness :
    (retrieveRequestState (redisStorer true)
        [("x", Data.reqState ⟨some ⟨"rq"⟩, "rel"⟩, 300)] 10
        ⟨[("lidp-rs", "x")], "10.0.0.5:443".data⟩).1 =
      [("x", Data.reqState ⟨some ⟨"rq"⟩, "rel"⟩, 300)] ∧
    (retrieveRequestState (redisStorer true)
        (retrieveRequestState (redisStorer true)
          [("x", Data.reqState ⟨some ⟨"rq"⟩, "rel"⟩, 300)] 10
          ⟨[("lidp-rs", "x")], "10.0.0.5:443".data⟩).1 20
        ⟨[("lidp-rs", "x")], "10.0.0.5:443".data⟩).1 =
      [("x", Data.reqState ⟨some ⟨"rq"⟩, "rel"⟩, 300)] ∧
    (retrieveRequestState (redisStorer true)
        [("x", Data.reqState ⟨some ⟨"rq"⟩, "rel"⟩, 300)] 10
        ⟨[("lidp-rs", "x")], "10.0.0.5:443".data⟩).2.1 =
      ROutcome.ok ((⟨some ⟨"rq"⟩, "rel"⟩ : RequestState).AuthnRequest,
        (⟨some ⟨"rq"⟩, "rel"⟩ : RequestState).RelayState) ∧
    (retrieveRequestState (redisStorer true)
        (retrieveRequestState (redisStorer true)
          [("x", Data.reqState ⟨some ⟨"rq"⟩, "rel"⟩, 300)] 10
          ⟨[("lidp-rs", "x")], "10.0.0.5:443".data⟩).1 20
        ⟨[("lidp-rs", "x")], "10.0.0.5:443".data⟩).2.1 =
      (retrieveRequestState (redisStorer true)
        [("x", Data.reqState ⟨some ⟨"rq"⟩, "rel"⟩, 300)] 10
        ⟨[("lidp-rs", "x")], "10.0.0.5:443".data⟩).2.1 :=
  loadState_idempotent_nonconsuming
    [("x", Data.reqState ⟨some ⟨"rq"⟩, "rel"⟩, 300)] 10 20 "x" ⟨some ⟨"rq"⟩, "rel"⟩
    ⟨[("lidp-rs", "x")], "10.0.0.5:443".data⟩ (by decide) (by decide) (by decide)

/-- Claim C9 counterexample: for the valid transport source address
`[::1]:8080` (host `[::1]`, i.e. the IP `::1`, port `8080`) the extractor
returns the nil IP, not the parsed host IP: splitting on the *first* colon
leaves `"["`, which parses as no IP at all, while the host IP `::1` does
parse. -/
theorem getIP_ipv6_hostport_counterexample :
    getIP ⟨[], "[::1]:8080".data⟩ = [] ∧
    parseIP "::1".data = List.replicate 15 0 ++ [1] ∧
    getIP ⟨[], "[::1]:8080".data⟩ ≠ parseIP "::1".data := by
  decide

/-- An element of the suffix after it makes `contains` on the appended list
true. -/
theorem contains_append_cons (host port : List Char) :
    (host ++ ':' :: port).contains ':' = true := by
  induction host with
  | nil => simp
  | cons a t ih => simp [ih]

/-- When no element of the prefix satisfies the stop character,
`takeWhile` over the appended list returns exactly the prefix. -/
theorem takeWhile_append_cons (host port : List Char) (hnc : ':' ∉ host) :
    (host ++ ':' :: port).takeWhile (fun c => !(c == ':')) = host := by
  induction host with
  | nil => simp
  | cons a t ih =>
    have hne : ¬(':' = a) := fun h => hnc (List.mem_cons.mpr (Or.inl h))
    have ha : (a == ':') = false := beq_eq_false_iff_ne.mpr (fun h => hne h.symm)
    have ht : ':' ∉ t := fun h => hnc (List.mem_cons_of_mem a h)
    simp [List.takeWhile_cons, ha, ih ht]

/-- Claim C9 (amended): the extractor keeps the text before the *first*
colon of the source address and parses that; hence for any source address
`host:port` whose host part contains no colon (every IPv4 address, no
IPv6 address) it returns the parsed host IP. -/
theorem getIP_hostport_parses_host
    (cookies : List (String × String)) (host port : List Char)
    (hnc : ':' ∉ host) :
    getIP ⟨cookies, host ++ ':' :: port⟩ = parseIP host := by
  unfold getIP
  simp [contains_append_cons, takeWhile_append_cons host port hnc]

/-- Witness for the amended C9 at a concrete IPv4 `host:port` address. -/
theorem getIP_hostport_parses_host_witness :
    getIP ⟨[], "10.0.0.5".data ++ ':' :: "443".data⟩ = parseIP "10.0.0.5".data :=
  getIP_hostport_parses_host [] "10.0.0.5".data "443".data (by decide)
